import Mathlib

/-!
Shallow embedding of `src/main.py` (a two-stage Streamlit prompt-enhancer /
generator).  The mutable Streamlit session state becomes an explicit
`SessionState` record, the environment-variable table becomes an `Env` record,
and the external LiteLLM `completion` capability becomes an oracle function
`CompletionRequest → Except String (Option String)` (success carries
`response.choices[0].message.content`, which Python may report as `None`;
failure carries the exception text).  Each of the two script sections
(Enhancement, lines 135-197; Generation, lines 199-292) is embedded as a pure
function from (environment, oracle, session state, form inputs) to a
`SectionResult` recording the new session state, the list of completion calls
issued, the `st.error` / `st.info` messages shown, and whether a response was
rendered.
-/

/-- Python truthiness of an optional string: `None` and `""` are falsy,
every other string is truthy. -/
def truthy : Option String → Bool
  | none => false
  | some s => !(s == "")

/-- `startsWithL needle hay`: the character list `hay` starts with `needle`. -/
def startsWithL : List Char → List Char → Bool
  | [], _ => true
  | _ :: _, [] => false
  | a :: as, b :: bs => (a == b) && startsWithL as bs

/-- `containsSubL needle hay`: `needle` occurs as a contiguous run in `hay`. -/
def containsSubL (needle : List Char) : List Char → Bool
  | [] => startsWithL needle []
  | b :: bs => startsWithL needle (b :: bs) || containsSubL needle bs

/-- Python's `sub in s` substring test on strings. -/
def strContains (s sub : String) : Bool := containsSubL sub.toList s.toList

/-- The Streamlit session state: `st.session_state.user_prompt` (a string,
the text-area widget value) and `st.session_state.enhanced_prompt`
(a string or `None`). -/
structure SessionState where
  user_prompt : String
  enhanced_prompt : Option String
  deriving Repr, DecidableEq

/-- The three API-key environment variables read at lines 85-87 of
`src/main.py`; `none` models an absent variable. -/
structure Env where
  google_api_key : Option String
  groq_api_key : Option String
  openrouter_api_key : Option String
  deriving Repr, DecidableEq

/-- The fixed provider set offered by both dropdowns. -/
inductive Provider
  | googleGemini
  | groq
  | openRouter
  deriving Repr, DecidableEq

/-- The `enhancement_llm_options` dict (src/main.py lines 103-107). -/
def enhancement_llm_options : Provider → String
  | .googleGemini => "gemini/gemini-2.5-flash"
  | .groq => "groq/llama-3.1-8b-instant"
  | .openRouter => "openrouter/meta-llama/llama-3.1-8b-instruct:free"

/-- The `llm_options` dict of the Generation section (src/main.py
lines 212-216); textually identical to `enhancement_llm_options`. -/
def llm_options : Provider → String
  | .googleGemini => "gemini/gemini-2.5-flash"
  | .groq => "groq/llama-3.1-8b-instant"
  | .openRouter => "openrouter/meta-llama/llama-3.1-8b-instruct:free"

/-- One `{role, content}` message pair of a completion request. -/
structure Message where
  role : String
  content : String
  deriving Repr, DecidableEq

/-- The arguments of one `completion(...)` call.  The temperature float is
only ever passed through unmodified, so it is represented as a rational. -/
structure CompletionRequest where
  model : String
  messages : List Message
  temperature : Rat
  deriving Repr, DecidableEq

/-- Result of running one script section: the session state afterwards, the
completion calls issued, the `st.error` and `st.info` messages shown, and
whether the section rendered a response text. -/
structure SectionResult where
  state : SessionState
  calls : List CompletionRequest
  errors : List String
  infos : List String
  rendered : Bool
  deriving Repr, DecidableEq

/-- The `st.error` text for a missing Google key (src/main.py line 149). -/
def google_key_error : String :=
  "🚨 Google API Key not found! Please add your key to a `.env` file: `GOOGLE_API_KEY=\x27Your-API-Key-Here\x27`"

/-- The `st.error` text for a missing Groq key (src/main.py line 152). -/
def groq_key_error : String :=
  "🚨 Groq API Key not found! Please add your key to a `.env` file: `GROQ_API_KEY=\x27Your-Groq-Key-Here\x27`"

/-- The `st.error` text for a missing OpenRouter key (src/main.py line 155). -/
def openrouter_key_error : String :=
  "🚨 OpenRouter API Key not found! Please add your key to a `.env` file: `OPENROUTER_API_KEY=\x27Your-OpenRouter-Key-Here\x27`"

/-- The credential each provider requires, as read from the environment. -/
def Env.credential (env : Env) : Provider → Option String
  | .googleGemini => env.google_api_key
  | .groq => env.groq_api_key
  | .openRouter => env.openrouter_api_key

/-- The name of the environment variable holding each provider's key. -/
def env_var_name : Provider → String
  | .googleGemini => "GOOGLE_API_KEY"
  | .groq => "GROQ_API_KEY"
  | .openRouter => "OPENROUTER_API_KEY"

/-- The error message the key check emits for each provider. -/
def missing_key_error : Provider → String
  | .googleGemini => google_key_error
  | .groq => groq_key_error
  | .openRouter => openrouter_key_error

/-- The inline API-key validation, identical in both sections
(src/main.py lines 144-160 and 248-264): substring dispatch on the model
identifier, returning the error message when the matching key is falsy. -/
def api_key_check (env : Env) (selected_model : String) : Option String :=
  if strContains selected_model "gemini" && !truthy env.google_api_key then
    some google_key_error
  else if strContains selected_model "groq" && !truthy env.groq_api_key then
    some groq_key_error
  else if strContains selected_model "openrouter" && !truthy env.openrouter_api_key then
    some openrouter_key_error
  else
    none

/-- The fixed system instruction of the Enhancement stage
(src/main.py lines 164-168). -/
def system_prompt : String :=
  "As an expert prompt engineering assistant, your task is to refine a user\x27s simple prompt into a concise yet powerful one.\nYour goal is to be brief but effective. Enhance the user\x27s request by adding only the most essential context, a clear persona, and a specific desired output format.\nAvoid verbosity and filler words. The final prompt should be direct and to the point.\n\nYour response should begin with a friendly greeting: \"Hello friend, here is a better prompt for you:\" "

/-- The `clear_state` reset callback (src/main.py lines 10-17): clears both
session fields and makes no completion call. -/
def clear_state (_s : SessionState) : SessionState × List CompletionRequest :=
  ({ user_prompt := "", enhanced_prompt := none }, [])

/-- The completion request the Enhancement stage builds
(src/main.py lines 174-181): system instruction plus the user idea,
temperature fixed at 0.7. -/
def enhance_request (s : SessionState) (provider : Provider) : CompletionRequest :=
  { model := enhancement_llm_options provider
    messages := [{ role := "system", content := system_prompt },
                 { role := "user", content := s.user_prompt }]
    temperature := 0.7 }

/-- The `st.info` hint shown when an Enhancement call fails
(src/main.py line 197). -/
def enhance_fail_info : String :=
  "Please check your API key and network connection. Also, ensure the LLM API is enabled for your project."

/-- The Enhancement section (src/main.py lines 135-197).  Runs only when the
submit button was clicked and the idea text is truthy; checks the key
(stopping with an error when absent), then calls the completion oracle and
on success overwrites `enhanced_prompt` with the returned content. -/
def enhance_section (env : Env) (oracle : CompletionRequest → Except String (Option String))
    (s : SessionState) (provider : Provider) (submit_enhance_button : Bool) : SectionResult :=
  if submit_enhance_button && !(s.user_prompt == "") then
    match api_key_check env (enhancement_llm_options provider) with
    | some err => { state := s, calls := [], errors := [err], infos := [], rendered := false }
    | none =>
      let req := enhance_request s provider
      match oracle req with
      | .ok content =>
          { state := { s with enhanced_prompt := content }
            calls := [req], errors := [], infos := [], rendered := true }
      | .error e =>
          { state := s, calls := [req]
            errors := ["An error occurred: " ++ e]
            infos := [enhance_fail_info]
            rendered := false }
  else
    { state := s, calls := [], errors := [], infos := [], rendered := false }

/-- The completion request the Generation stage builds
(src/main.py lines 270-276): a single user message holding the enhanced
prompt text, with the user-chosen temperature. -/
def generate_request (s : SessionState) (provider : Provider) (temperature : Rat) :
    CompletionRequest :=
  { model := llm_options provider
    messages := [{ role := "user", content := s.enhanced_prompt.getD "" }]
    temperature := temperature }

/-- The `st.info` message shown when no enhanced prompt exists yet
(src/main.py line 292). -/
def enhance_first_info : String :=
  "Please enhance your prompt first before generating a final result."

/-- The `st.info` hint shown when a Generation call fails
(src/main.py line 288). -/
def generate_fail_info : String :=
  "Please check your API key, model ID, or network connection."

/-- The Generation section (src/main.py lines 199-292).  The whole form is
gated on `st.session_state.enhanced_prompt` being truthy; otherwise the
enhance-first info message is shown.  On submit, the key is checked, then a
single-message completion call is made with the chosen temperature; the
result is rendered but never stored in session state. -/
def generate_section (env : Env) (oracle : CompletionRequest → Except String (Option String))
    (s : SessionState) (provider : Provider) (temperature : Rat)
    (submit_generate_button : Bool) : SectionResult :=
  if truthy s.enhanced_prompt then
    if submit_generate_button then
      match api_key_check env (llm_options provider) with
      | some err => { state := s, calls := [], errors := [err], infos := [], rendered := false }
      | none =>
        let req := generate_request s provider temperature
        match oracle req with
        | .ok _final => { state := s, calls := [req], errors := [], infos := [], rendered := true }
        | .error e =>
            { state := s, calls := [req]
              errors := ["An error occurred: " ++ e]
              infos := [generate_fail_info]
              rendered := false }
    else
      { state := s, calls := [], errors := [], infos := [], rendered := false }
  else
    { state := s, calls := [], errors := [], infos := [enhance_first_info], rendered := false }

/-! ### Helper lemmas -/

@[simp] theorem gemini_model_has_gemini :
    strContains "gemini/gemini-2.5-flash" "gemini" = true := by decide

@[simp] theorem gemini_model_has_groq :
    strContains "gemini/gemini-2.5-flash" "groq" = false := by decide

@[simp] theorem gemini_model_has_openrouter :
    strContains "gemini/gemini-2.5-flash" "openrouter" = false := by decide

@[simp] theorem groq_model_has_gemini :
    strContains "groq/llama-3.1-8b-instant" "gemini" = false := by decide

@[simp] theorem groq_model_has_groq :
    strContains "groq/llama-3.1-8b-instant" "groq" = true := by decide

@[simp] theorem groq_model_has_openrouter :
    strContains "groq/llama-3.1-8b-instant" "openrouter" = false := by decide

@[simp] theorem openrouter_model_has_gemini :
    strContains "openrouter/meta-llama/llama-3.1-8b-instruct:free" "gemini" = false := by decide

@[simp] theorem openrouter_model_has_groq :
    strContains "openrouter/meta-llama/llama-3.1-8b-instruct:free" "groq" = false := by decide

@[simp] theorem openrouter_model_has_openrouter :
    strContains "openrouter/meta-llama/llama-3.1-8b-instruct:free" "openrouter" = true := by decide

/-- The two identical provider tables agree. -/
theorem llm_options_eq (p : Provider) : llm_options p = enhancement_llm_options p := by
  cases p <;> rfl

/-- The substring-dispatched key check, restated per provider: it returns
`none` exactly when the provider's own credential is truthy, and otherwise
that provider's error message. -/
theorem api_key_check_model (env : Env) (p : Provider) :
    api_key_check env (enhancement_llm_options p) =
      if truthy (env.credential p) then none else some (missing_key_error p) := by
  cases p <;>
    cases hg : truthy env.google_api_key <;>
    cases hq : truthy env.groq_api_key <;>
    cases ho : truthy env.openrouter_api_key <;>
    simp [api_key_check, enhancement_llm_options, Env.credential, missing_key_error, hg, hq, ho]

/-- Same restatement for the (identical) Generation-side table. -/
theorem api_key_check_model_gen (env : Env) (p : Provider) :
    api_key_check env (llm_options p) =
      if truthy (env.credential p) then none else some (missing_key_error p) := by
  rw [llm_options_eq, api_key_check_model]

/-- The Generation section never changes the session state. -/
theorem generate_section_state (env : Env)
    (oracle : CompletionRequest → Except String (Option String))
    (s : SessionState) (p : Provider) (t : Rat) (b : Bool) :
    (generate_section env oracle s p t b).state = s := by
  rcases hk : api_key_check env (llm_options p) with _ | err <;>
    rcases ho : oracle (generate_request s p t) with c | e <;>
    cases ht : truthy s.enhanced_prompt <;>
    cases b <;>
    simp [generate_section, hk, ho, ht]

/-- When the enhanced prompt is falsy, the Generation section only shows the
enhance-first info message. -/
theorem generate_section_gated (env : Env)
    (oracle : CompletionRequest → Except String (Option String))
    (s : SessionState) (p : Provider) (t : Rat) (b : Bool)
    (habs : truthy s.enhanced_prompt = false) :
    generate_section env oracle s p t b =
      { state := s, calls := [], errors := [], infos := [enhance_first_info],
        rendered := false } := by
  simp [generate_section, habs]

/-- A submitted Enhancement with truthy idea, truthy credential, and a
successful oracle answer `c` sets `enhanced_prompt` to `c` and issues
exactly the one built request. -/
theorem enhance_section_success (env : Env)
    (oracle : CompletionRequest → Except String (Option String))
    (s : SessionState) (p : Provider) (c : Option String)
    (hup : s.user_prompt ≠ "")
    (hkey : truthy (env.credential p) = true)
    (hok : oracle (enhance_request s p) = Except.ok c) :
    enhance_section env oracle s p true =
      { state := { s with enhanced_prompt := c }
        calls := [enhance_request s p], errors := [], infos := [], rendered := true } := by
  simp [enhance_section, api_key_check_model, hkey, hup, hok]

/-! ### Claims -/

/-- C1: for every provider whose credential is absent (falsy), a submitted
Enhancement with a non-empty idea and a submitted Generation with a truthy
enhanced prompt both stop with that provider's missing-key error message —
which names the exact environment variable — changing no state and issuing
zero completion calls. -/
theorem C1_missing_credential_blocks (env : Env)
    (oracle : CompletionRequest → Except String (Option String))
    (s : SessionState) (p : Provider) (t : Rat)
    (hmiss : truthy (env.credential p) = false) :
    (s.user_prompt ≠ "" →
      enhance_section env oracle s p true =
        { state := s, calls := [], errors := [missing_key_error p], infos := [],
          rendered := false }) ∧
    (truthy s.enhanced_prompt = true →
      generate_section env oracle s p t true =
        { state := s, calls := [], errors := [missing_key_error p], infos := [],
          rendered := false }) ∧
    strContains (missing_key_error p) (env_var_name p) = true := by
  refine ⟨fun hup => ?_, fun hep => ?_, ?_⟩
  · simp [enhance_section, api_key_check_model, hmiss, hup]
  · simp [generate_section, api_key_check_model_gen, hmiss, hep]
  · cases p <;> decide

/-- Witness for C1: Groq with all keys absent, concrete session state. -/
theorem C1_missing_credential_blocks_witness :
    enhance_section ⟨none, none, none⟩ (fun _ => Except.ok (some "out"))
        ⟨"an idea", some "EP"⟩ .groq true =
      { state := ⟨"an idea", some "EP"⟩, calls := [], errors := [missing_key_error .groq],
        infos := [], rendered := false } ∧
    generate_section ⟨none, none, none⟩ (fun _ => Except.ok (some "out"))
        ⟨"an idea", some "EP"⟩ .groq (1/2) true =
      { state := ⟨"an idea", some "EP"⟩, calls := [], errors := [missing_key_error .groq],
        infos := [], rendered := false } ∧
    strContains (missing_key_error .groq) (env_var_name .groq) = true := by
  have h := C1_missing_credential_blocks ⟨none, none, none⟩ (fun _ => Except.ok (some "out"))
    ⟨"an idea", some "EP"⟩ .groq (1/2) (by decide)
  exact ⟨h.1 (by decide), h.2.1 (by decide), h.2.2⟩

/-- C2: on every Enhancement submission on which the completion oracle
succeeds, `enhanced_prompt` is set to exactly the returned content,
overwriting whatever value it held before. -/
theorem C2_enhance_success_overwrites (env : Env)
    (oracle : CompletionRequest → Except String (Option String))
    (s : SessionState) (p : Provider) (c : Option String)
    (hup : s.user_prompt ≠ "") (hkey : truthy (env.credential p) = true)
    (hok : oracle (enhance_request s p) = Except.ok c) :
    (enhance_section env oracle s p true).state.enhanced_prompt = c := by
  rw [enhance_section_success env oracle s p c hup hkey hok]

/-- Witness for C2: a mocked greeting response overwrites the old value. -/
theorem C2_enhance_success_overwrites_witness :
    (enhance_section ⟨some "g", some "q", some "r"⟩
        (fun _ => Except.ok (some "Hello friend, here is a better prompt for you: X"))
        ⟨"summarize a report", some "old value"⟩ .groq true).state.enhanced_prompt =
      some "Hello friend, here is a better prompt for you: X" :=
  C2_enhance_success_overwrites ⟨some "g", some "q", some "r"⟩
    (fun _ => Except.ok (some "Hello friend, here is a better prompt for you: X"))
    ⟨"summarize a report", some "old value"⟩ .groq
    (some "Hello friend, here is a better prompt for you: X")
    (by decide) (by decide) rfl

/-- C3: the Generation section issues a completion call only when
`enhanced_prompt` is truthy (present and non-empty); whenever it is absent
or empty the section leaves the state unchanged, issues no call, and shows
the enhance-first info message. -/
theorem C3_generation_gate (env : Env)
    (oracle : CompletionRequest → Except String (Option String))
    (s : SessionState) (p : Provider) (t : Rat) (b : Bool) :
    (truthy s.enhanced_prompt = false →
      generate_section env oracle s p t b =
        { state := s, calls := [], errors := [], infos := [enhance_first_info],
          rendered := false }) ∧
    ((generate_section env oracle s p t b).calls ≠ [] →
      truthy s.enhanced_prompt = true) := by
  constructor
  · exact fun habs => generate_section_gated env oracle s p t b habs
  · intro hcalls
    cases h : truthy s.enhanced_prompt with
    | true => rfl
    | false =>
        rw [generate_section_gated env oracle s p t b h] at hcalls
        exact absurd rfl hcalls

/-- Witness for C3: an empty-string enhanced prompt gates Generation. -/
theorem C3_generation_gate_witness :
    generate_section ⟨some "g", some "q", some "r"⟩ (fun _ => Except.ok (some "out"))
        ⟨"idea", some ""⟩ .openRouter (7/10) true =
      { state := ⟨"idea", some ""⟩, calls := [], errors := [],
        infos := [enhance_first_info], rendered := false } :=
  (C3_generation_gate ⟨some "g", some "q", some "r"⟩ (fun _ => Except.ok (some "out"))
    ⟨"idea", some ""⟩ .openRouter (7/10) true).1 (by decide)

/-- C4: on every Enhancement submission on which the completion oracle
fails with detail `e`, the section reports "An error occurred: e" (plus the
remediation hint), leaves the session state — in particular the prior
`enhanced_prompt` — unchanged, and renders no enhanced prompt. -/
theorem C4_enhance_failure_preserves (env : Env)
    (oracle : CompletionRequest → Except String (Option String))
    (s : SessionState) (p : Provider) (e : String)
    (hup : s.user_prompt ≠ "") (hkey : truthy (env.credential p) = true)
    (herr : oracle (enhance_request s p) = Except.error e) :
    enhance_section env oracle s p true =
      { state := s, calls := [enhance_request s p]
        errors := ["An error occurred: " ++ e], infos := [enhance_fail_info]
        rendered := false } := by
  simp [enhance_section, api_key_check_model, hkey, hup, herr]

/-- Witness for C4: a failing oracle leaves the prior prompt intact. -/
theorem C4_enhance_failure_preserves_witness :
    enhance_section ⟨some "g", some "q", some "r"⟩ (fun _ => Except.error "rate limited")
        ⟨"an idea", some "kept"⟩ .googleGemini true =
      { state := ⟨"an idea", some "kept"⟩
        calls := [enhance_request ⟨"an idea", some "kept"⟩ .googleGemini]
        errors := ["An error occurred: " ++ "rate limited"], infos := [enhance_fail_info]
        rendered := false } :=
  C4_enhance_failure_preserves ⟨some "g", some "q", some "r"⟩
    (fun _ => Except.error "rate limited") ⟨"an idea", some "kept"⟩ .googleGemini
    "rate limited" (by decide) (by decide) rfl

/-- C5: Generation never mutates `enhanced_prompt` (for any state, provider,
temperature, oracle outcome, or submit flag), and two successive submitted
runs against the same truthy enhanced prompt with present credentials each
issue their own single completion call, the second built from the unchanged
prompt. -/
theorem C5_generation_preserves_prompt (env : Env)
    (oracle1 oracle2 : CompletionRequest → Except String (Option String))
    (s : SessionState) (p1 p2 : Provider) (t1 t2 : Rat)
    (hne : truthy s.enhanced_prompt = true)
    (hk1 : truthy (env.credential p1) = true)
    (hk2 : truthy (env.credential p2) = true) :
    (∀ (env9 : Env) (oracle9 : CompletionRequest → Except String (Option String))
      (s9 : SessionState) (p9 : Provider) (t9 : Rat) (b9 : Bool),
      (generate_section env9 oracle9 s9 p9 t9 b9).state.enhanced_prompt =
        s9.enhanced_prompt) ∧
    (generate_section env oracle1 s p1 t1 true).calls = [generate_request s p1 t1] ∧
    (generate_section env oracle2
        (generate_section env oracle1 s p1 t1 true).state p2 t2 true).calls =
      [generate_request s p2 t2] := by
  refine ⟨fun env9 oracle9 s9 p9 t9 b9 => by rw [generate_section_state], ?_, ?_⟩
  · rcases ho : oracle1 (generate_request s p1 t1) with c | e <;>
      simp [generate_section, api_key_check_model_gen, hne, hk1, ho]
  · rw [generate_section_state]
    rcases ho : oracle2 (generate_request s p2 t2) with c | e <;>
      simp [generate_section, api_key_check_model_gen, hne, hk2, ho]

/-- Witness for C5: two runs with different providers, temperatures, and
oracle outcomes over the same enhanced prompt. -/
theorem C5_generation_preserves_prompt_witness :
    (generate_section ⟨some "g", some "q", some "r"⟩ (fun _ => Except.ok (some "res1"))
        ⟨"idea", some "Write a haiku about rain"⟩ .googleGemini (3/10)
        true).state.enhanced_prompt = some "Write a haiku about rain" ∧
    (generate_section ⟨some "g", some "q", some "r"⟩ (fun _ => Except.ok (some "res1"))
        ⟨"idea", some "Write a haiku about rain"⟩ .googleGemini (3/10) true).calls =
      [generate_request ⟨"idea", some "Write a haiku about rain"⟩ .googleGemini (3/10)] ∧
    (generate_section ⟨some "g", some "q", some "r"⟩ (fun _ => Except.error "down")
        (generate_section ⟨some "g", some "q", some "r"⟩ (fun _ => Except.ok (some "res1"))
          ⟨"idea", some "Write a haiku about rain"⟩ .googleGemini (3/10) true).state
        .openRouter (9/10) true).calls =
      [generate_request ⟨"idea", some "Write a haiku about rain"⟩ .openRouter (9/10)] := by
  have h := C5_generation_preserves_prompt ⟨some "g", some "q", some "r"⟩
    (fun _ => Except.ok (some "res1")) (fun _ => Except.error "down")
    ⟨"idea", some "Write a haiku about rain"⟩ .googleGemini .openRouter (3/10) (9/10)
    (by decide) (by decide) (by decide)
  exact ⟨h.1 ⟨some "g", some "q", some "r"⟩ (fun _ => Except.ok (some "res1"))
    ⟨"idea", some "Write a haiku about rain"⟩ .googleGemini (3/10) true, h.2.1, h.2.2⟩

/-- C6: a submitted Enhancement with non-empty idea and present credential
issues exactly one completion call — whatever the oracle then answers —
holding precisely two messages, the fixed system instruction first and the
user idea verbatim as the user-role second, with temperature exactly 7/10;
the Enhancement section takes no temperature input at all. -/
theorem C6_enhance_call_shape (env : Env)
    (oracle : CompletionRequest → Except String (Option String))
    (s : SessionState) (p : Provider)
    (hup : s.user_prompt ≠ "") (hkey : truthy (env.credential p) = true) :
    (enhance_section env oracle s p true).calls = [enhance_request s p] ∧
    enhance_request s p =
      { model := enhancement_llm_options p
        messages := [{ role := "system", content := system_prompt },
                     { role := "user", content := s.user_prompt }]
        temperature := 7/10 } := by
  constructor
  · rcases ho : oracle (enhance_request s p) with c | e <;>
      simp [enhance_section, api_key_check_model, hkey, hup, ho]
  · unfold enhance_request
    norm_num

/-- Witness for C6: the Groq scenario from the spec. -/
theorem C6_enhance_call_shape_witness :
    (enhance_section ⟨some "g", some "q", some "r"⟩
        (fun _ => Except.ok (some "Hello friend, here is a better prompt for you: ..."))
        ⟨"summarize a report", none⟩ .groq true).calls =
      [enhance_request ⟨"summarize a report", none⟩ .groq] ∧
    enhance_request ⟨"summarize a report", none⟩ .groq =
      { model := enhancement_llm_options .groq
        messages := [{ role := "system", content := system_prompt },
                     { role := "user", content := "summarize a report" }]
        temperature := 7/10 } :=
  C6_enhance_call_shape ⟨some "g", some "q", some "r"⟩
    (fun _ => Except.ok (some "Hello friend, here is a better prompt for you: ..."))
    ⟨"summarize a report", none⟩ .groq (by decide) (by decide)

/-- C7: a submitted Generation over enhanced prompt `txt` (non-empty), with
a present credential and temperature `t` in [0, 1], issues exactly one
completion call holding the single user-role message whose content is `txt`
verbatim, with temperature exactly `t`. -/
theorem C7_generate_call_shape (env : Env)
    (oracle : CompletionRequest → Except String (Option String))
    (s : SessionState) (p : Provider) (t : Rat) (txt : String)
    (hep : s.enhanced_prompt = some txt) (htxt : txt ≠ "")
    (hkey : truthy (env.credential p) = true)
    (_ht0 : 0 ≤ t) (_ht1 : t ≤ 1) :
    (generate_section env oracle s p t true).calls =
      [{ model := llm_options p, messages := [{ role := "user", content := txt }],
         temperature := t }] := by
  have hne : truthy s.enhanced_prompt = true := by simp [truthy, hep, htxt]
  rcases ho : oracle (generate_request s p t) with c | e <;>
    simp [generate_section, api_key_check_model_gen, hne, hkey, ho] <;>
    simp [generate_request, hep]

/-- Witness for C7: the OpenRouter haiku scenario at temperature 1/5. -/
theorem C7_generate_call_shape_witness :
    (generate_section ⟨some "g", some "q", some "r"⟩ (fun _ => Except.ok (some "haiku"))
        ⟨"idea", some "Write a haiku about rain"⟩ .openRouter (1/5) true).calls =
      [{ model := llm_options .openRouter
         messages := [{ role := "user", content := "Write a haiku about rain" }]
         temperature := 1/5 }] :=
  C7_generate_call_shape ⟨some "g", some "q", some "r"⟩ (fun _ => Except.ok (some "haiku"))
    ⟨"idea", some "Write a haiku about rain"⟩ .openRouter (1/5) "Write a haiku about rain"
    rfl (by decide) (by decide) (by norm_num) (by norm_num)

/-- C8: the Reset action, applied to any session state whatsoever, yields an
empty `user_prompt` and an absent `enhanced_prompt` — the initial session
state — and issues no completion call. -/
theorem C8_reset_clears (s : SessionState) :
    clear_state s = ({ user_prompt := "", enhanced_prompt := none }, []) := rfl

/-- C9: a submission of the Enhancement section with empty idea text is a
no-op for every provider, oracle, and prior session state: no completion
call, no state change, no message. -/
theorem C9_empty_idea_noop (env : Env)
    (oracle : CompletionRequest → Except String (Option String))
    (s : SessionState) (p : Provider) (b : Bool)
    (hup : s.user_prompt = "") :
    enhance_section env oracle s p b =
      { state := s, calls := [], errors := [], infos := [], rendered := false } := by
  simp [enhance_section, hup]

/-- Witness for C9: submitted Enhancement over an empty idea does nothing. -/
theorem C9_empty_idea_noop_witness :
    enhance_section ⟨some "g", some "q", some "r"⟩ (fun _ => Except.ok (some "out"))
        ⟨"", some "kept"⟩ .openRouter true =
      { state := ⟨"", some "kept"⟩, calls := [], errors := [], infos := [],
        rendered := false } :=
  C9_empty_idea_noop ⟨some "g", some "q", some "r"⟩ (fun _ => Except.ok (some "out"))
    ⟨"", some "kept"⟩ .openRouter true rfl

/-- C10: when an Enhancement call succeeds but returns falsy content (empty
string or `None`), `enhanced_prompt` is overwritten with that value, and the
Generation section is gated again: on the resulting state it issues no call
and shows the enhance-first message, for every environment, oracle,
provider, temperature, and submit flag. -/
theorem C10_empty_success_regates (env : Env)
    (oracle : CompletionRequest → Except String (Option String))
    (s : SessionState) (p : Provider) (c : Option String)
    (hup : s.user_prompt ≠ "") (hkey : truthy (env.credential p) = true)
    (hok : oracle (enhance_request s p) = Except.ok c)
    (hempty : truthy c = false) :
    (enhance_section env oracle s p true).state.enhanced_prompt = c ∧
    ∀ (env9 : Env) (oracle9 : CompletionRequest → Except String (Option String))
      (p9 : Provider) (t9 : Rat) (b9 : Bool),
      generate_section env9 oracle9 (enhance_section env oracle s p true).state p9 t9 b9 =
        { state := (enhance_section env oracle s p true).state, calls := [], errors := []
          infos := [enhance_first_info], rendered := false } := by
  have hs := enhance_section_success env oracle s p c hup hkey hok
  constructor
  · rw [hs]
  · intro env9 oracle9 p9 t9 b9
    rw [hs]
    exact generate_section_gated env9 oracle9 _ p9 t9 b9 (by simpa using hempty)

/-- Witness for C10: an empty successful response re-gates Generation. -/
theorem C10_empty_success_regates_witness :
    (enhance_section ⟨some "g", some "q", some "r"⟩ (fun _ => Except.ok (some ""))
        ⟨"an idea", some "previously fine"⟩ .googleGemini true).state.enhanced_prompt =
      some "" ∧
    generate_section ⟨some "g", none, none⟩ (fun _ => Except.error "never")
        (enhance_section ⟨some "g", some "q", some "r"⟩ (fun _ => Except.ok (some ""))
          ⟨"an idea", some "previously fine"⟩ .googleGemini true).state
        .groq (7/10) true =
      { state := (enhance_section ⟨some "g", some "q", some "r"⟩
            (fun _ => Except.ok (some ""))
            ⟨"an idea", some "previously fine"⟩ .googleGemini true).state
        calls := [], errors := [], infos := [enhance_first_info], rendered := false } := by
  have h := C10_empty_success_regates ⟨some "g", some "q", some "r"⟩
    (fun _ => Except.ok (some "")) ⟨"an idea", some "previously fine"⟩ .googleGemini
    (some "") (by decide) (by decide) rfl (by decide)
  exact ⟨h.1, h.2 ⟨some "g", none, none⟩ (fun _ => Except.error "never") .groq (7/10) true⟩
